import Mathlib

/-!
Verification development for the netcam-aioeos EOS device-under-test adapter.

The definitions below are shallow embeddings of the Python source under
`src/netcam_aioeos/`:

* `topology/eos_check_interfaces.py` — the interfaces check executor, its
  exclusive-list check, the `EosInterfaceMeasurement.from_cli` measurement
  mapper, and the per-interface / per-SVI / per-loopback evaluators;
* `vlans/eos_check_vlans.py` — the VLANs check executor, its exclusive-list
  check and the per-VLAN evaluator;
* `topology/eos_xcvr_matching.py` — the transceiver model/type matchers;
* `eos_dut.py` — the `api_cache_get` response cache and the
  `execute_checks` single-dispatch entry point.

Python dicts are embedded as association lists, dict truthiness is modelled
explicitly where the source relies on it, and fallible paths (Python
exceptions) are embedded with `Except`.
-/

/-- Identifies which check a result answers: a per-item check (keyed by its
`check_id()` string) or the collection-level exclusive-list check. -/
inductive CheckRef
  | item (id : String)
  | exclusive
deriving DecidableEq, Repr

/-- The result kinds produced by the executors, mirroring the
`netcad.checks.check_result_types` classes used by this repository:
`CheckPassResult`, `CheckFailFieldMismatch`, `CheckFailNoExists`,
`CheckFailMissingMembers`, `CheckFailExtraMembers`, `CheckInfoLog`. -/
inductive ResKind
  | pass
  | failFieldMismatch
  | failNoExists
  | failMissingMembers
  | failExtraMembers
  | info
deriving DecidableEq, Repr

/-- `EosInterfaceMeasurement` from `eos_check_interfaces.py`: the normalized
per-interface measurement record (`used`, `oper_up`, `desc`, `speed`). -/
structure EosInterfaceMeasurement where
  used : Bool
  oper_up : Bool
  desc : String
  speed : Nat
deriving DecidableEq, Repr

/-- `InterfaceCheck.expected_results` (netcad `InterfaceCheckUsedExpectations`):
`used` is a required boolean; `oper_up`, `desc` and `speed` are optional.
The source skips a comparison whenever the expected value is Python-falsy
(`None`, `False`, `""`, `0`). -/
structure IfExpected where
  used : Bool
  oper_up : Option Bool
  desc : Option String
  speed : Option Nat
deriving DecidableEq, Repr

/-- Measurement/payload values carried on results.  Only the payloads the
executors actually attach are represented; list-valued payloads keep the
member names but not the `sorted_by_name` display ordering. -/
inductive Val
  | s (x : String)
  | b (x : Bool)
  | n (x : Nat)
  | ifMeas (m : EosInterfaceMeasurement)
  | ifExpected (e : IfExpected)
  | strs (xs : List String)
  | nats (xs : List Nat)
  | vlanMeas (name status : String) (interfaces : List String)
  | dict (xs : List (String × String))
deriving DecidableEq, Repr

/-- One check result: the check it answers, its kind, the optional `field`
label, and the optional measurement payload. -/
structure CheckResult where
  check : CheckRef
  kind : ResKind
  field : Option String := none
  meas : Option Val := none
deriving DecidableEq, Repr

/-- Whether a result kind is one of the `CheckFail...` kinds. -/
def ResKind.isFail : ResKind → Bool
  | .failFieldMismatch => true
  | .failNoExists => true
  | .failMissingMembers => true
  | .failExtraMembers => true
  | _ => false

/-- `netcad.netcam.any_failures`: does the results list hold any
`CheckFail...`-kind result. -/
def any_failures (rs : List CheckResult) : Bool :=
  rs.any (fun r => r.kind.isFail)

/-- Python set difference `a - b` over identifier lists: the members of `a`
not in `b` (duplicates are irrelevant to the executors, which only test
emptiness and membership of these differences). -/
def pyDiff {α : Type} [DecidableEq α] (a b : List α) : List α :=
  a.filter (fun x => decide (x ∉ b))

/-- Python `s.startswith(pat)` (kernel-reducible form). -/
def pyStartsWith (s pat : String) : Bool := pat.data.isPrefixOf s.data

/-- Python `s.endswith(pat)` (kernel-reducible form). -/
def pyEndsWith (s pat : String) : Bool := pat.data.isSuffixOf s.data

/-- Python `int(s)` on the digit-string VLAN-ID keys of the CLI response
(`none` embeds the `ValueError` raised on a non-digit key). -/
def pyInt? (s : String) : Option Nat :=
  if !s.data.isEmpty && s.data.all Char.isDigit then
    some (s.data.foldl (fun acc c => acc * 10 + (c.toNat - 48)) 0)
  else none

-- -----------------------------------------------------------------------
-- Measurement mapper: EosInterfaceMeasurement.from_cli
-- -----------------------------------------------------------------------

/-- One entry of the `show interfaces status` response
(`interfaceStatuses[<if_name>]`): the fields read by `from_cli`. -/
structure IfacePayload where
  linkStatus : String
  lineProtocolStatus : String
  description : String
  bandwidth : Nat
deriving DecidableEq, Repr

/-- `EosInterfaceMeasurement.from_cli`.  The source computes
`speed = cli_payload["bandwidth"] * BITS_TO_MBS` with `BITS_TO_MBS = 10**-6`
(a Python float) and pydantic coerces the float product to `int` by
truncation; for non-negative integer bandwidths in the device's range the
observable value is exactly `bandwidth / 10^6` rounded toward zero, embedded
here as `Nat` floor division. -/
def EosInterfaceMeasurement.from_cli (p : IfacePayload) : EosInterfaceMeasurement :=
  { used := p.linkStatus != "disabled"
    oper_up := p.lineProtocolStatus == "up"
    desc := p.description
    speed := p.bandwidth / 1000000 }

-- -----------------------------------------------------------------------
-- Transceiver model / type matching (eos_xcvr_matching.py)
-- -----------------------------------------------------------------------

/-- `measured.split("-AR", 1)[0]`: the characters of `l` before the first
occurrence of the pattern `pat` (the whole list when `pat` never occurs). -/
def takeBeforeFirst (pat : List Char) : List Char → List Char
  | [] => []
  | c :: rest =>
      if pat.isPrefixOf (c :: rest) then []
      else c :: takeBeforeFirst pat rest

/-- String form of `takeBeforeFirst` for the `"-AR"` pattern. -/
def splitARHead (s : String) : String :=
  ⟨takeBeforeFirst "-AR".data s.data⟩

/-- `eos_xcvr_model_matches` from `eos_xcvr_matching.py`.  The
`get_config_transciver_model` lookup into the user's `netcad.toml`
`[transceivers.models]` table is passed in as `cfg`; the source applies the
alias only when the looked-up value is truthy (a non-empty string). -/
def eos_xcvr_model_matches (cfg : String → Option String)
    (expected measured : String) : Bool :=
  if pyStartsWith expected "AOC-S-S-10G" then
    pyStartsWith measured "AOC-S-S-10G"
  else
    let measured1 :=
      if pyEndsWith measured "-AR" then splitARHead measured else measured
    let measured2 :=
      match cfg measured1 with
      | some ali => if ali != "" then ali else measured1
      | none => measured1
    expected == measured2

/-- The model-matching rule in the words of the claim: when the expected
model does not start with `"AOC-S-S-10G"`, a measured model ending in
`"-AR"` has that trailing three-character suffix stripped before the
equality comparison. -/
def xcvr_model_matches_claimed (expected measured : String) : Bool :=
  if pyStartsWith expected "AOC-S-S-10G" then
    pyStartsWith measured "AOC-S-S-10G"
  else
    let stripped :=
      if pyEndsWith measured "-AR" then measured.dropRight 3 else measured
    expected == stripped

/-- The amended rule: the measured model is truncated at the *first*
occurrence of `"-AR"` (everything from that occurrence onward removed),
matching `split("-AR", 1)[0]` in the source. -/
def xcvr_model_matches_amended (expected measured : String) : Bool :=
  if pyStartsWith expected "AOC-S-S-10G" then
    pyStartsWith measured "AOC-S-S-10G"
  else
    let truncated :=
      if pyEndsWith measured "-AR" then splitARHead measured else measured
    expected == truncated

-- -----------------------------------------------------------------------
-- Interfaces domain: checks and per-entity evaluators
-- (topology/eos_check_interfaces.py)
-- -----------------------------------------------------------------------

/-- One `InterfaceCheck`: its `check_id()` (the interface name), the
expected results, and the optional `check_params.interface_flags` dict. -/
structure IfCheck where
  if_name : String
  expected : IfExpected
  interface_flags : Option (List (String × Bool))
deriving DecidableEq, Repr

/-- `if_flags = check.check_params.interface_flags or {}` followed by
`if_flags.get("is_reserved", False)`. -/
def IfCheck.is_reserved (c : IfCheck) : Bool :=
  match c.interface_flags with
  | some fs => ((fs.lookup "is_reserved").getD false)
  | none => false

/-- `eos_check_one_interface`: evaluates one non-SVI, non-Loopback interface
check against its `show interfaces status` entry.  A reserved interface
yields one Info and returns; a `used` mismatch yields a Fail; when the
expected `used` is false the function returns right after the `used`
comparison; otherwise `oper_up` / `desc` / `speed` are compared in order,
skipping any field whose expected value is Python-falsy, and a Pass carrying
the measurement is appended iff no Fail was produced. -/
def eos_check_one_interface (check : IfCheck) (p : IfacePayload) : List CheckResult :=
  let measurement := EosInterfaceMeasurement.from_cli p
  let should := check.expected
  if check.is_reserved then
    [{ check := .item check.if_name, kind := .info,
       field := some "is_reserved", meas := some (.ifMeas measurement) }]
  else
    let usedFails : List CheckResult :=
      if should.used != measurement.used then
        [{ check := .item check.if_name, kind := .failFieldMismatch,
           field := some "used", meas := some (.b measurement.used) }]
      else []
    if !should.used then usedFails
    else
      let operFails : List CheckResult :=
        match should.oper_up with
        | some true =>
            if measurement.oper_up == true then []
            else [{ check := .item check.if_name, kind := .failFieldMismatch,
                    field := some "oper_up", meas := some (.b measurement.oper_up) }]
        | _ => []
      let descFails : List CheckResult :=
        match should.desc with
        | some d =>
            if d == "" then []
            else if d == measurement.desc then []
            else [{ check := .item check.if_name, kind := .failFieldMismatch,
                    field := some "desc", meas := some (.s measurement.desc) }]
        | none => []
      let speedFails : List CheckResult :=
        match should.speed with
        | some v =>
            if v == 0 then []
            else if v == measurement.speed then []
            else [{ check := .item check.if_name, kind := .failFieldMismatch,
                    field := some "speed", meas := some (.n measurement.speed) }]
        | none => []
      let results := usedFails ++ operFails ++ descFails ++ speedFails
      if !any_failures results then
        results ++ [{ check := .item check.if_name, kind := .pass,
                      field := none, meas := some (.ifMeas measurement) }]
      else results

/-- One entry of the `show vlan brief` / `show vlan` response
(`vlans[<vlan_id>]`): its `name`, `status` and the keys of its
`interfaces` dict. -/
structure VlanEntry where
  name : String
  status : String
  interfaces : List String
deriving DecidableEq, Repr

/-- Python `==` between the optional expected `desc` and the measured
string (`None == s` is `False`). -/
def optStrEq (o : Option String) (s : String) : Bool :=
  match o with
  | some d => d == s
  | none => false

/-- Python `==` between the optional expected `oper_up` and a measured
boolean (`None == b` is `False`). -/
def optBoolEq (o : Option Bool) (b : Bool) : Bool :=
  match o with
  | some e => e == b
  | none => false

/-- `eos_check_one_svi`: compares the VLAN entry's `name` against the
expected `desc`, and `status == "active"` against the expected `oper_up`;
a Pass carrying `check.expected_results.dict()` is appended iff no Fail
was produced. -/
def eos_check_one_svi (check : IfCheck) (svi : VlanEntry) : List CheckResult :=
  let descFails : List CheckResult :=
    if !(optStrEq check.expected.desc svi.name) then
      [{ check := .item check.if_name, kind := .failFieldMismatch,
         field := some "desc", meas := some (.s svi.name) }]
    else []
  let operFails : List CheckResult :=
    if !(optBoolEq check.expected.oper_up (svi.status == "active")) then
      [{ check := .item check.if_name, kind := .failFieldMismatch,
         field := some "oper_up", meas := some (.s svi.status) }]
    else []
  let results := descFails ++ operFails
  if !any_failures results then
    results ++ [{ check := .item check.if_name, kind := .pass,
                  field := none, meas := some (.ifExpected check.expected) }]
  else results

/-- `eos_check_one_loopback`: a loopback that exists is a Pass carrying the
raw `show ip interface brief` entry; no field checks are performed. -/
def eos_check_one_loopback (check : IfCheck) (lo : List (String × String)) :
    List CheckResult :=
  [{ check := .item check.if_name, kind := .pass,
     field := none, meas := some (.dict lo) }]

/-- `eos_check_exclusive_interfaces_list`: emits a missing-members Fail when
`expd - msrd` is non-empty, an extra-members Fail when `msrd - expd` is
non-empty, and appends a Pass iff neither Fail was produced. -/
def eos_check_exclusive_interfaces_list (expd msrd : List String) :
    List CheckResult :=
  let missing := pyDiff expd msrd
  let extras := pyDiff msrd expd
  let missingFails : List CheckResult :=
    if !missing.isEmpty then
      [{ check := .exclusive, kind := .failMissingMembers,
         field := some "interfaces", meas := some (.strs missing) }]
    else []
  let extraFails : List CheckResult :=
    if !extras.isEmpty then
      [{ check := .exclusive, kind := .failExtraMembers,
         field := some "interfaces", meas := some (.strs extras) }]
    else []
  let results := missingFails ++ extraFails
  if !any_failures results then
    results ++ [{ check := .exclusive, kind := .pass, field := none,
                  meas := some (.s "OK: no extra or missing interfaces") }]
  else results

-- -----------------------------------------------------------------------
-- VLANs domain (vlans/eos_check_vlans.py)
-- -----------------------------------------------------------------------

/-- One `VlanCheck`: its `check_id()` (the VLAN ID as a string) and the
expected results fields the evaluator reads (`vlan.name` and the expected
interface membership list). -/
structure VlanCheck where
  vlan_id : String
  name : String
  interfaces : List String
deriving DecidableEq, Repr

/-- `eos_check_one_vlan`: compares the VLAN `status` against the `"active"`
sentinel and the configured `name`, then the interface membership sets
(`Peer...` pseudo-members dropped, `Cpu` mapped to `Vlan<id>`); a Pass
carrying the measured name/status/membership is appended iff no Fail was
produced. -/
def eos_check_one_vlan (check : VlanCheck) (vlan_id : String) (st : VlanEntry) :
    List CheckResult :=
  let statusFails : List CheckResult :=
    if st.status != "active" then
      [{ check := .item check.vlan_id, kind := .failFieldMismatch,
         field := some "status", meas := some (.s st.status) }]
    else []
  let nameFails : List CheckResult :=
    if st.name != check.name then
      [{ check := .item check.vlan_id, kind := .failFieldMismatch,
         field := some "name", meas := some (.s st.name) }]
    else []
  let msrd_interfaces :=
    (st.interfaces.filter (fun n => !pyStartsWith n "Peer")).map
      (fun n => if n == "Cpu" then "Vlan" ++ vlan_id else n)
  let missing := pyDiff check.interfaces msrd_interfaces
  let extras := pyDiff msrd_interfaces check.interfaces
  let missingFails : List CheckResult :=
    if !missing.isEmpty then
      [{ check := .item check.vlan_id, kind := .failMissingMembers,
         field := some "interfaces", meas := some (.strs missing) }]
    else []
  let extraFails : List CheckResult :=
    if !extras.isEmpty then
      [{ check := .item check.vlan_id, kind := .failExtraMembers,
         field := some "interfaces", meas := some (.strs extras) }]
    else []
  let results := statusFails ++ nameFails ++ missingFails ++ extraFails
  if !any_failures results then
    results ++ [{ check := .item check.vlan_id, kind := .pass, field := none,
                  meas := some (.vlanMeas st.name st.status msrd_interfaces) }]
  else results

/-- `eos_check_vlan_exl_list`: the VLANs exclusive-list check.  Per its own
docstring it only looks for *extra* measured VLANs: an extra-members Fail
when `msrd - expd` is non-empty, and otherwise a single Pass carrying the
measured VLAN IDs.  Missing members are never reported here.  The `field`
of the Fail carries the exclusive check's `check_id()`. -/
def eos_check_vlan_exl_list (expd_vlan_ids msrd_vlan_ids : List Nat) :
    List CheckResult :=
  let extras := pyDiff msrd_vlan_ids expd_vlan_ids
  if !extras.isEmpty then
    [{ check := .exclusive, kind := .failExtraMembers,
       field := some "exclusive", meas := some (.nats extras) }]
  else
    [{ check := .exclusive, kind := .pass, field := none,
       meas := some (.nats msrd_vlan_ids) }]

-- -----------------------------------------------------------------------
-- The interfaces executor (eos_check_interfaces)
-- -----------------------------------------------------------------------

/-- `InterfaceCheckCollection`: the ordered checks plus the `exclusive`
collection flag. -/
structure IfCollection where
  checks : List IfCheck
  exclusive : Bool
deriving Repr

/-- `re.compile(r"Vlan(\d+)").match(if_name)`: anchored at the start, the
name must begin with `"Vlan"` followed by at least one digit; the captured
group is the maximal digit run (trailing characters do not prevent a
match). -/
def matchSvi (name : String) : Option String :=
  if pyStartsWith name "Vlan" then
    let digits := (name.data.drop 4).takeWhile Char.isDigit
    if digits.isEmpty then none else some ⟨digits⟩
  else none

/-- Device data consumed by the interfaces executor: the three CLI
responses fetched up front, as association lists keyed the way the source
indexes them. -/
structure IfDeviceData where
  interfaceStatuses : List (String × IfacePayload)
  vlans : List (String × VlanEntry)
  ipInterfaces : List (String × List (String × String))
deriving Repr

/-- The per-check loop of `eos_check_interfaces`.  The SVI branch contains
the source's dead `elif not (svi_oper_status or "Cpu" not in ...)` guard
(at that point `svi_oper_status` is a non-empty dict, hence truthy, so the
guard can never hold).  The non-SVI, non-Loopback branch reproduces the
source's missing `continue`: after appending the no-exists Fail the code
still calls `eos_check_one_interface(..., iface_oper_status=None)`, whose
`from_cli(None)` subscription raises `TypeError`; that exception is
embedded as `Except.error`, discarding the accumulated results exactly as
the propagating Python exception does. -/
def eos_check_interfaces_loop (dev : IfDeviceData) :
    List IfCheck → Except String (List CheckResult)
  | [] => .ok []
  | check :: rest =>
    let if_name := check.if_name
    match matchSvi if_name with
    | some vlan_id =>
      match (dev.vlans.lookup vlan_id) with
      | none =>
        (eos_check_interfaces_loop dev rest).map
          (fun rs => { check := .item if_name, kind := .failNoExists : CheckResult } :: rs)
      | some svi_oper_status =>
        if !(true || !(svi_oper_status.interfaces.contains "Cpu")) then
          (eos_check_interfaces_loop dev rest).map
            (fun rs => { check := .item if_name, kind := .failNoExists : CheckResult } :: rs)
        else
          (eos_check_interfaces_loop dev rest).map
            (fun rs => eos_check_one_svi check svi_oper_status ++ rs)
    | none =>
      if pyStartsWith if_name "Loopback" then
        match dev.ipInterfaces.lookup if_name with
        | none =>
          (eos_check_interfaces_loop dev rest).map
            (fun rs => { check := .item if_name, kind := .failNoExists : CheckResult } :: rs)
        | some lo_status =>
          (eos_check_interfaces_loop dev rest).map
            (fun rs => eos_check_one_loopback check lo_status ++ rs)
      else
        match dev.interfaceStatuses.lookup if_name with
        | none =>
          .error "TypeError: NoneType object is not subscriptable"
        | some iface_oper_status =>
          (eos_check_interfaces_loop dev rest).map
            (fun rs => eos_check_one_interface check iface_oper_status ++ rs)

/-- `eos_check_interfaces`: when the collection is exclusive, the
exclusive-list results are appended *first* (before the per-check loop);
the expected identifiers are the checks' `check_id()`s and the measured
identifiers are `chain(map_if_oper_data, map_ip_ifaces)` (the keys of the
interface-status and IP-interface maps). -/
def eos_check_interfaces (collection : IfCollection) (dev : IfDeviceData) :
    Except String (List CheckResult) :=
  let exclResults :=
    if collection.exclusive then
      eos_check_exclusive_interfaces_list
        (collection.checks.map (fun c => c.if_name))
        (dev.interfaceStatuses.map Prod.fst ++ dev.ipInterfaces.map Prod.fst)
    else []
  (eos_check_interfaces_loop dev collection.checks).map
    (fun rs => exclResults ++ rs)

-- -----------------------------------------------------------------------
-- The VLANs executor (eos_check_vlans)
-- -----------------------------------------------------------------------

/-- The merge loop of `eos_check_vlans`: for every VLAN ID in the
configured-ports response, `dev_vlans_info[vlan_id]["interfaces"].update(...)`
unions the configured interface names into the operational entry's
interface dict (a `KeyError` escapes when a configured VLAN is absent from
the operational table). -/
def mergeVlanCfg (info : List (String × VlanEntry))
    (cfg : List (String × List String)) :
    Except String (List (String × VlanEntry)) :=
  if cfg.all (fun p => (info.lookup p.1).isSome) then
    .ok (info.map (fun p =>
      let added := ((cfg.lookup p.1).getD []).filter
        (fun n => !p.2.interfaces.contains n)
      (p.1, { p.2 with interfaces := p.2.interfaces ++ added })))
  else .error "KeyError"

/-- The per-check loop of `eos_check_vlans`: a missing VLAN entry yields a
no-exists Fail and the loop continues; a present entry is handed to
`eos_check_one_vlan`. -/
def eos_check_vlans_loop (merged : List (String × VlanEntry)) :
    List VlanCheck → List CheckResult
  | [] => []
  | check :: rest =>
    match merged.lookup check.vlan_id with
    | none =>
      { check := .item check.vlan_id, kind := .failNoExists : CheckResult }
        :: eos_check_vlans_loop merged rest
    | some vlan_status =>
      eos_check_one_vlan check check.vlan_id vlan_status
        ++ eos_check_vlans_loop merged rest

/-- `eos_check_vlans`: computes the active measured VLAN-ID set
(`int(vlan_id)` over the keys of entries whose status is `"active"`; a
non-numeric key of an *active* entry raises `ValueError` — `int()` is
never applied to inactive entries' keys), merges the configured-ports
response into the operational table, runs the per-check loop, and
unconditionally appends the exclusive-list results
(`eos_check_vlan_exl_list`) after all per-item results.  `exclExpd` is
`{v.vlan_id for v in exclusive.expected_results.vlans}`. -/
def eos_check_vlans (checks : List VlanCheck) (exclExpd : List Nat)
    (info : List (String × VlanEntry)) (cfg : List (String × List String)) :
    Except String (List CheckResult) :=
  if !((info.filter (fun p => p.2.status == "active")).all
      (fun p => (pyInt? p.1).isSome)) then .error "ValueError"
  else
    let msrd_active_vlan_ids :=
      (info.filter (fun p => p.2.status == "active")).map
        (fun p => (pyInt? p.1).getD 0)
    match mergeVlanCfg info cfg with
    | .error e => .error e
    | .ok merged =>
      .ok (eos_check_vlans_loop merged checks
            ++ eos_check_vlan_exl_list exclExpd msrd_active_vlan_ids)

-- -----------------------------------------------------------------------
-- The DUT response cache (EOSDeviceUnderTest.api_cache_get)
-- -----------------------------------------------------------------------

/-- A structured eAPI response for cache modelling (a dict); Python
truthiness of a dict is non-emptiness. -/
abbrev Resp := List (String × String)

/-- Python truthiness of a response dict. -/
def respTruthy (r : Resp) : Bool := !r.isEmpty

/-- One `api_cache_get(key, command)` invocation together with the
response its RPC fetch would return. -/
structure CacheCall where
  key : String
  fetched : Resp
deriving Repr

/-- `api_cache_get`, under the cache lock:
`if not (has_data := self._api_cache.get(key))` fetches and stores when the
key is absent *or its cached value is falsy*; the returned triple is the
response handed to the caller, the new cache state, and whether the RPC
fetch (`self.eapi.cli`) was issued. -/
def api_cache_get (cache : List (String × Resp)) (call : CacheCall) :
    Resp × List (String × Resp) × Bool :=
  match cache.lookup call.key with
  | some v =>
    if respTruthy v then (v, cache, false)
    else (call.fetched, (call.key, call.fetched) :: cache, true)
  | none => (call.fetched, (call.key, call.fetched) :: cache, true)

/-- Runs a sequence of `api_cache_get` calls against one session cache,
collecting the returned responses and the number of RPC fetches issued. -/
def run_api_cache_calls (cache : List (String × Resp)) :
    List CacheCall → List Resp × List (String × Resp) × Nat
  | [] => ([], cache, 0)
  | call :: rest =>
    let step := api_cache_get cache call
    let tail := run_api_cache_calls step.2.1 rest
    (step.1 :: tail.1, tail.2.1, (if step.2.2 then 1 else 0) + tail.2.2)

-- -----------------------------------------------------------------------
-- Check dispatch (EOSDeviceUnderTest.execute_checks)
-- -----------------------------------------------------------------------

/-- The runtime types of check collections a caller can pass to
`execute_checks`. -/
inductive CollectionType
  | device_info | interfaces | transceivers | cabling | vlans
  | ipaddrs | switchports | lags | mlags
deriving DecidableEq, Repr

/-- The collection type's class name, as `type(checks).__name__` would
report it. -/
def CollectionType.typeName : CollectionType → String
  | .device_info => "DeviceInformationCheckCollection"
  | .interfaces => "InterfaceCheckCollection"
  | .transceivers => "TransceiverCheckCollection"
  | .cabling => "InterfaceCablingCheckCollection"
  | .vlans => "VlanCheckCollection"
  | .ipaddrs => "IpInterfacesCheckCollection"
  | .switchports => "SwitchportCheckCollection"
  | .lags => "LagCheckCollection"
  | .mlags => "MLagCheckCollection"

/-- The executor registrations performed in the `EOSDeviceUnderTest` class
body of `eos_dut.py` (the lags and mlags registrations are commented out
there). -/
def registered_executors : List CollectionType :=
  [.device_info, .interfaces, .transceivers, .cabling, .vlans,
   .ipaddrs, .switchports]

/-- Outcome of one `execute_checks` dispatch: either the registered
executor for the collection's runtime type runs, or an exception is
raised. -/
inductive DispatchOutcome
  | executed (t : CollectionType)
  | raised (msg : String)
deriving DecidableEq, Repr

/-- Modelled from the spec: the base-class method
`AsyncDeviceUnderTest.execute_checks` lives in the external netcad package
(not in this repository); per the spec's dispatch contract
`dispatch(checks: CheckCollection)` it takes the check collection as a
required positional parameter.  The repository's fallback body is
`return super().execute_checks()` — it passes *no* argument, so in Python
the call raises `TypeError` for the missing positional argument before any
base-class behavior can run. -/
def super_execute_checks_no_args : DispatchOutcome :=
  .raised "TypeError: execute_checks() missing 1 required positional argument: checks"

/-- `execute_checks` dispatch: route by the collection's runtime type to
its registered executor; an unregistered type falls into the default body,
whose argument-less `super()` call raises. -/
def execute_checks (registry : List CollectionType) (t : CollectionType) :
    DispatchOutcome :=
  if t ∈ registry then .executed t else super_execute_checks_no_args

/-- Substring test over character lists: does `pat` occur in the list. -/
def containsSubList (pat : List Char) : List Char → Bool
  | [] => pat.isEmpty
  | c :: rest => pat.isPrefixOf (c :: rest) || containsSubList pat rest

/-- Substring test over strings. -/
def strContainsSub (s pat : String) : Bool :=
  containsSubList pat.data s.data

-- -----------------------------------------------------------------------
-- Helper lemmas shared by the theorems below
-- -----------------------------------------------------------------------

/-- Number of `CheckFail...`-kind results in a list. -/
def countFails (rs : List CheckResult) : Nat :=
  (rs.filter (fun r => r.kind.isFail)).length

/-- Number of Pass results in a list. -/
def countPasses (rs : List CheckResult) : Nat :=
  (rs.filter (fun r => r.kind == .pass)).length

theorem countFails_all_fail (L : List CheckResult)
    (hL : ∀ r ∈ L, r.kind.isFail = true) : countFails L = L.length := by
  unfold countFails
  rw [List.filter_eq_self.mpr hL]

theorem countPasses_all_fail (L : List CheckResult)
    (hL : ∀ r ∈ L, r.kind.isFail = true) : countPasses L = 0 := by
  unfold countPasses
  rw [List.length_eq_zero, List.filter_eq_nil_iff]
  intro r hr
  have hf := hL r hr
  intro hp
  rw [beq_iff_eq] at hp
  rw [hp] at hf
  simp [ResKind.isFail] at hf

theorem any_failures_false_nil (L : List CheckResult)
    (hL : ∀ r ∈ L, r.kind.isFail = true) (h : any_failures L = false) :
    L = [] := by
  cases L with
  | nil => rfl
  | cons r rs =>
    exfalso
    have hf := hL r (by simp)
    simp [any_failures] at h
    exact absurd hf (by simpa using h.1)

theorem any_failures_true_pos (L : List CheckResult)
    (h : any_failures L = true) : L ≠ [] := by
  intro hnil
  rw [hnil] at h
  simp [any_failures] at h

/-- The common executor tail: a list of fail results followed by a Pass iff
no fail was produced yields either (0 fails, 1 pass) or (≥ 1 fail,
0 passes). -/
theorem fails_then_pass_split (L : List CheckResult) (pr : CheckResult)
    (hL : ∀ r ∈ L, r.kind.isFail = true) (hp : pr.kind = .pass) :
    (countFails (if !any_failures L then L ++ [pr] else L) = 0 ∧
     countPasses (if !any_failures L then L ++ [pr] else L) = 1) ∨
    (1 ≤ countFails (if !any_failures L then L ++ [pr] else L) ∧
     countPasses (if !any_failures L then L ++ [pr] else L) = 0) := by
  by_cases h : any_failures L = false
  · left
    have hnil := any_failures_false_nil L hL h
    subst hnil
    simp [any_failures, countFails, countPasses, hp, ResKind.isFail]
  · right
    rw [Bool.not_eq_false] at h
    have hout : (if !any_failures L then L ++ [pr] else L) = L := by
      rw [h]; simp
    rw [hout]
    refine ⟨?_, countPasses_all_fail L hL⟩
    rw [countFails_all_fail L hL]
    have hne := any_failures_true_pos L h
    exact Nat.one_le_iff_ne_zero.mpr (fun h0 => hne (List.length_eq_zero.mp h0))

/-- The fail-result prefix computed by `eos_check_one_interface` on the
non-reserved, expected-used path: the `used` comparison followed by the
`oper_up` / `desc` / `speed` comparisons with their falsy-skip guards
(proof artifact naming the let-bound lists of the source). -/
def oneIfaceFails (c : IfCheck) (p : IfacePayload) : List CheckResult :=
  (if c.expected.used != (EosInterfaceMeasurement.from_cli p).used then
    [{ check := .item c.if_name, kind := .failFieldMismatch,
       field := some "used", meas := some (.b (EosInterfaceMeasurement.from_cli p).used) }]
  else []) ++
  (match c.expected.oper_up with
    | some true =>
        if (EosInterfaceMeasurement.from_cli p).oper_up == true then []
        else [{ check := .item c.if_name, kind := .failFieldMismatch,
                field := some "oper_up",
                meas := some (.b (EosInterfaceMeasurement.from_cli p).oper_up) }]
    | _ => []) ++
  (match c.expected.desc with
    | some d =>
        if d == "" then []
        else if d == (EosInterfaceMeasurement.from_cli p).desc then []
        else [{ check := .item c.if_name, kind := .failFieldMismatch,
                field := some "desc",
                meas := some (.s (EosInterfaceMeasurement.from_cli p).desc) }]
    | none => []) ++
  (match c.expected.speed with
    | some v =>
        if v == 0 then []
        else if v == (EosInterfaceMeasurement.from_cli p).speed then []
        else [{ check := .item c.if_name, kind := .failFieldMismatch,
                field := some "speed",
                meas := some (.n (EosInterfaceMeasurement.from_cli p).speed) }]
    | none => [])

theorem oneIfaceFails_all_fail (c : IfCheck) (p : IfacePayload) :
    ∀ r ∈ oneIfaceFails c p, r.kind.isFail = true := by
  intro r hr
  simp only [oneIfaceFails, List.mem_append] at hr
  rcases hr with ((hA | hB) | hC) | hD
  · split at hA
    · simp only [List.mem_singleton] at hA
      subst hA; rfl
    · simp at hA
  · rcases hob : c.expected.oper_up with _ | b
    · rw [hob] at hB; simp at hB
    · rw [hob] at hB
      cases b
      · simp at hB
      · simp at hB
        rcases hB with ⟨-, rfl⟩
        rfl
  · rcases hod : c.expected.desc with _ | d
    · rw [hod] at hC; simp at hC
    · rw [hod] at hC
      simp at hC
      rcases hC with ⟨-, -, rfl⟩
      rfl
  · rcases hos : c.expected.speed with _ | v
    · rw [hos] at hD; simp at hD
    · rw [hos] at hD
      simp at hD
      rcases hD with ⟨-, -, rfl⟩
      rfl

/-- Normal form of `eos_check_one_interface` for a non-reserved check whose
expected `used` is true: the fail list followed by the Pass iff no fail
occurred. -/
theorem one_interface_normal_form (c : IfCheck) (p : IfacePayload)
    (hres : c.is_reserved = false) (hused : c.expected.used = true) :
    eos_check_one_interface c p =
      (if !any_failures (oneIfaceFails c p) then
        oneIfaceFails c p ++
          [{ check := .item c.if_name, kind := .pass, field := none,
             meas := some (.ifMeas (EosInterfaceMeasurement.from_cli p)) }]
      else oneIfaceFails c p) := by
  simp only [eos_check_one_interface, oneIfaceFails, hres, hused,
    Bool.false_eq_true, if_false, Bool.not_true, Bool.true_eq_false]

/-- The measured interface membership set computed by `eos_check_one_vlan`
(`Peer...` pseudo-members dropped, `Cpu` mapped to `Vlan<id>`). -/
def vlanMsrdInterfaces (vlan_id : String) (st : VlanEntry) : List String :=
  (st.interfaces.filter (fun n => !pyStartsWith n "Peer")).map
    (fun n => if n == "Cpu" then "Vlan" ++ vlan_id else n)

/-- The fail-result prefix computed by `eos_check_one_vlan` (proof artifact
naming the let-bound lists of the source). -/
def oneVlanFails (check : VlanCheck) (vlan_id : String) (st : VlanEntry) :
    List CheckResult :=
  (if st.status != "active" then
    [{ check := .item check.vlan_id, kind := .failFieldMismatch,
       field := some "status", meas := some (.s st.status) }]
  else []) ++
  (if st.name != check.name then
    [{ check := .item check.vlan_id, kind := .failFieldMismatch,
       field := some "name", meas := some (.s st.name) }]
  else []) ++
  (if !(pyDiff check.interfaces (vlanMsrdInterfaces vlan_id st)).isEmpty then
    [{ check := .item check.vlan_id, kind := .failMissingMembers,
       field := some "interfaces",
       meas := some (.strs (pyDiff check.interfaces (vlanMsrdInterfaces vlan_id st))) }]
  else []) ++
  (if !(pyDiff (vlanMsrdInterfaces vlan_id st) check.interfaces).isEmpty then
    [{ check := .item check.vlan_id, kind := .failExtraMembers,
       field := some "interfaces",
       meas := some (.strs (pyDiff (vlanMsrdInterfaces vlan_id st) check.interfaces)) }]
  else [])

theorem oneVlanFails_all_fail (check : VlanCheck) (vlan_id : String)
    (st : VlanEntry) : ∀ r ∈ oneVlanFails check vlan_id st, r.kind.isFail = true := by
  intro r hr
  simp only [oneVlanFails, List.mem_append] at hr
  rcases hr with ((hA | hB) | hC) | hD
  · split at hA
    · simp only [List.mem_singleton] at hA; subst hA; rfl
    · simp at hA
  · split at hB
    · simp only [List.mem_singleton] at hB; subst hB; rfl
    · simp at hB
  · split at hC
    · simp only [List.mem_singleton] at hC; subst hC; rfl
    · simp at hC
  · split at hD
    · simp only [List.mem_singleton] at hD; subst hD; rfl
    · simp at hD

/-- Normal form of `eos_check_one_vlan`: the fail list followed by the Pass
iff no fail occurred. -/
theorem one_vlan_normal_form (check : VlanCheck) (vlan_id : String)
    (st : VlanEntry) :
    eos_check_one_vlan check vlan_id st =
      (if !any_failures (oneVlanFails check vlan_id st) then
        oneVlanFails check vlan_id st ++
          [{ check := .item check.vlan_id, kind := .pass, field := none,
             meas := some (.vlanMeas st.name st.status
               (vlanMsrdInterfaces vlan_id st)) }]
      else oneVlanFails check vlan_id st) := by
  simp only [eos_check_one_vlan, oneVlanFails, vlanMsrdInterfaces]

/-- When the combined output has no fail, the Pass element is a member. -/
theorem pass_mem_of_no_fails (L : List CheckResult) (pr : CheckResult)
    (hL : ∀ r ∈ L, r.kind.isFail = true)
    (h0 : countFails (if !any_failures L then L ++ [pr] else L) = 0) :
    pr ∈ (if !any_failures L then L ++ [pr] else L) := by
  by_cases h : any_failures L = false
  · simp [h]
  · exfalso
    rw [Bool.not_eq_false] at h
    have hout : (if !any_failures L then L ++ [pr] else L) = L := by
      rw [h]; simp
    rw [hout, countFails_all_fail L hL] at h0
    exact any_failures_true_pos L h (List.length_eq_zero.mp h0)

-- -----------------------------------------------------------------------
-- C1
-- -----------------------------------------------------------------------

/-- C1 (counterexample): for a non-reserved interface check whose expected
`used` is false and whose device entity exists with a matching measured
`used` (link-status `"disabled"`), the per-entity evaluation produces zero
field-mismatch Fails and yet zero Pass results — refuting the claim that
zero Fails always come with exactly one Pass. -/
theorem eos_terminal_result_counterexample :
    countFails (eos_check_one_interface
      { if_name := "Ethernet5",
        expected := { used := false, oper_up := none, desc := none, speed := none },
        interface_flags := none }
      { linkStatus := "disabled", lineProtocolStatus := "down",
        description := "", bandwidth := 0 }) = 0 ∧
    countPasses (eos_check_one_interface
      { if_name := "Ethernet5",
        expected := { used := false, oper_up := none, desc := none, speed := none },
        interface_flags := none }
      { linkStatus := "disabled", lineProtocolStatus := "down",
        description := "", bandwidth := 0 }) = 0 := by
  decide

/-- C1 (amended): for `eos_check_one_interface` on a non-reserved check
with expected `used = true`, and for `eos_check_one_vlan` on any check,
either zero Fail-kind results are produced and exactly one Pass (the
interface Pass carrying the measurement), or at least one Fail and zero
Pass — never both a Pass and a Fail for the same check.  (A reserved
interface yields only an Info, and an interface expected unused that
matches yields no result at all, so those cases are excluded.) -/
theorem eos_terminal_result_per_entity
    (c : IfCheck) (p : IfacePayload) (vc : VlanCheck) (vid : String)
    (st : VlanEntry)
    (hres : c.is_reserved = false) (hused : c.expected.used = true) :
    ((countFails (eos_check_one_interface c p) = 0 ∧
      countPasses (eos_check_one_interface c p) = 1 ∧
      { check := .item c.if_name, kind := .pass, field := none,
        meas := some (.ifMeas (EosInterfaceMeasurement.from_cli p)) }
        ∈ eos_check_one_interface c p) ∨
     (1 ≤ countFails (eos_check_one_interface c p) ∧
      countPasses (eos_check_one_interface c p) = 0)) ∧
    ((countFails (eos_check_one_vlan vc vid st) = 0 ∧
      countPasses (eos_check_one_vlan vc vid st) = 1) ∨
     (1 ≤ countFails (eos_check_one_vlan vc vid st) ∧
      countPasses (eos_check_one_vlan vc vid st) = 0)) := by
  constructor
  · rw [one_interface_normal_form c p hres hused]
    rcases fails_then_pass_split (oneIfaceFails c p)
        { check := .item c.if_name, kind := .pass, field := none,
          meas := some (.ifMeas (EosInterfaceMeasurement.from_cli p)) }
        (oneIfaceFails_all_fail c p) rfl with ⟨h1, h2⟩ | h
    · exact Or.inl ⟨h1, h2,
        pass_mem_of_no_fails _ _ (oneIfaceFails_all_fail c p) h1⟩
    · exact Or.inr h
  · rw [one_vlan_normal_form vc vid st]
    exact fails_then_pass_split _ _ (oneVlanFails_all_fail vc vid st) rfl

/-- Concrete interface check for witnesses (spec Scenario A). -/
def ethernet3Check : IfCheck :=
  { if_name := "Ethernet3",
    expected := { used := true, oper_up := some true,
                  desc := some "sw2112-et49/50", speed := some 10000 },
    interface_flags := none }

/-- Concrete interface payload for witnesses (spec Scenario A). -/
def ethernet3Payload : IfacePayload :=
  { linkStatus := "connected", lineProtocolStatus := "up",
    description := "sw2112-et49/50", bandwidth := 10000000000 }

/-- Concrete VLAN check for witnesses. -/
def vlan10Check : VlanCheck :=
  { vlan_id := "10", name := "VL10", interfaces := ["Vlan10"] }

/-- Concrete VLAN entry for witnesses. -/
def vlan10Entry : VlanEntry :=
  { name := "VL10", status := "active", interfaces := ["Cpu"] }

/-- C1 witness: the amended statement instantiated at a concrete matching
interface (spec Scenario A) and a concrete matching VLAN. -/
theorem eos_terminal_result_per_entity_witness :
    (ethernet3Check.is_reserved = false) ∧
    (ethernet3Check.expected.used = true) ∧
    ((((countFails (eos_check_one_interface ethernet3Check ethernet3Payload) = 0 ∧
        countPasses (eos_check_one_interface ethernet3Check ethernet3Payload) = 1 ∧
        { check := .item ethernet3Check.if_name, kind := .pass, field := none,
          meas := some (.ifMeas (EosInterfaceMeasurement.from_cli ethernet3Payload)) }
          ∈ eos_check_one_interface ethernet3Check ethernet3Payload) ∨
       (1 ≤ countFails (eos_check_one_interface ethernet3Check ethernet3Payload) ∧
        countPasses (eos_check_one_interface ethernet3Check ethernet3Payload) = 0)) ∧
      ((countFails (eos_check_one_vlan vlan10Check "10" vlan10Entry) = 0 ∧
        countPasses (eos_check_one_vlan vlan10Check "10" vlan10Entry) = 1) ∨
       (1 ≤ countFails (eos_check_one_vlan vlan10Check "10" vlan10Entry) ∧
        countPasses (eos_check_one_vlan vlan10Check "10" vlan10Entry) = 0)))) :=
  ⟨rfl, rfl,
    eos_terminal_result_per_entity ethernet3Check ethernet3Payload
      vlan10Check "10" vlan10Entry (by decide) (by decide)⟩

-- -----------------------------------------------------------------------
-- C10
-- -----------------------------------------------------------------------

/-- Field labels of the fail results of `eos_check_one_interface`'s normal
path: a fail on `oper_up` / `desc` / `speed` can only arise when the
corresponding expected value is truthy. -/
theorem oneIfaceFails_mem_field (c : IfCheck) (p : IfacePayload)
    (r : CheckResult) (hr : r ∈ oneIfaceFails c p) :
    r.field = some "used" ∨
    (r.field = some "oper_up" ∧ c.expected.oper_up = some true) ∨
    (r.field = some "desc" ∧ ∃ d, c.expected.desc = some d ∧ ¬d = "") ∨
    (r.field = some "speed" ∧ ∃ v, c.expected.speed = some v ∧ ¬v = 0) := by
  simp only [oneIfaceFails, List.mem_append] at hr
  rcases hr with ((hA | hB) | hC) | hD
  · left
    split at hA
    · simp only [List.mem_singleton] at hA; subst hA; rfl
    · simp at hA
  · right; left
    rcases hob : c.expected.oper_up with _ | b
    · rw [hob] at hB; simp at hB
    · rw [hob] at hB
      cases b
      · simp at hB
      · simp at hB
        rcases hB with ⟨-, rfl⟩
        exact ⟨rfl, rfl⟩
  · right; right; left
    rcases hod : c.expected.desc with _ | d
    · rw [hod] at hC; simp at hC
    · rw [hod] at hC
      simp at hC
      rcases hC with ⟨hne, -, rfl⟩
      exact ⟨rfl, d, rfl, hne⟩
  · right; right; right
    rcases hos : c.expected.speed with _ | v
    · rw [hos] at hD; simp at hD
    · rw [hos] at hD
      simp at hD
      rcases hD with ⟨hne, -, rfl⟩
      exact ⟨rfl, v, rfl, hne⟩

/-- C10: in the per-interface field comparison for a used, non-reserved
interface, a field among `oper_up`, `desc`, `speed` whose expected value is
Python-falsy (`None`, `False`, `""`, `0`) is skipped entirely: no
field-mismatch Fail for that field is ever emitted, whatever the measured
values. -/
theorem eos_falsy_expected_fields_skipped (c : IfCheck) (p : IfacePayload)
    (hres : c.is_reserved = false) (hused : c.expected.used = true) :
    ((c.expected.oper_up = none ∨ c.expected.oper_up = some false) →
      ∀ r ∈ eos_check_one_interface c p,
        ¬(r.kind = .failFieldMismatch ∧ r.field = some "oper_up")) ∧
    ((c.expected.desc = none ∨ c.expected.desc = some "") →
      ∀ r ∈ eos_check_one_interface c p,
        ¬(r.kind = .failFieldMismatch ∧ r.field = some "desc")) ∧
    ((c.expected.speed = none ∨ c.expected.speed = some 0) →
      ∀ r ∈ eos_check_one_interface c p,
        ¬(r.kind = .failFieldMismatch ∧ r.field = some "speed")) := by
  have key : ∀ r ∈ eos_check_one_interface c p,
      r.kind = .pass ∨ r ∈ oneIfaceFails c p := by
    intro r hr
    rw [one_interface_normal_form c p hres hused] at hr
    split at hr
    · rcases List.mem_append.mp hr with h | h
      · exact Or.inr h
      · simp only [List.mem_singleton] at h
        subst h; exact Or.inl rfl
    · exact Or.inr hr
  refine ⟨?_, ?_, ?_⟩
  · intro hfalsy r hr ⟨hk, hf⟩
    rcases key r hr with hp | hmem
    · rw [hp] at hk; exact absurd hk (by simp)
    · rcases oneIfaceFails_mem_field c p r hmem with h | ⟨-, h⟩ | ⟨h, -⟩ | ⟨h, -⟩
      · rw [h] at hf; simp at hf
      · rcases hfalsy with h2 | h2 <;> rw [h2] at h <;> simp at h
      · rw [h] at hf; simp at hf
      · rw [h] at hf; simp at hf
  · intro hfalsy r hr ⟨hk, hf⟩
    rcases key r hr with hp | hmem
    · rw [hp] at hk; exact absurd hk (by simp)
    · rcases oneIfaceFails_mem_field c p r hmem with h | ⟨h, -⟩ | ⟨-, d, hd, hne⟩ | ⟨h, -⟩
      · rw [h] at hf; simp at hf
      · rw [h] at hf; simp at hf
      · rcases hfalsy with h2 | h2 <;> rw [h2] at hd
        · exact Option.noConfusion hd
        · exact hne (Option.some.inj hd).symm
      · rw [h] at hf; simp at hf
  · intro hfalsy r hr ⟨hk, hf⟩
    rcases key r hr with hp | hmem
    · rw [hp] at hk; exact absurd hk (by simp)
    · rcases oneIfaceFails_mem_field c p r hmem with h | ⟨h, -⟩ | ⟨h, -⟩ | ⟨-, v, hv, hne⟩
      · rw [h] at hf; simp at hf
      · rw [h] at hf; simp at hf
      · rw [h] at hf; simp at hf
      · rcases hfalsy with h2 | h2 <;> rw [h2] at hv
        · exact Option.noConfusion hv
        · exact hne (Option.some.inj hv).symm

/-- C10 witness: a check expecting `used = true` with falsy `oper_up`,
`desc` and `speed` expectations, against a payload measuring the opposite
of everything, emits no field-mismatch Fail for those three fields. -/
theorem eos_falsy_expected_fields_skipped_witness :
    (IfCheck.is_reserved
      { if_name := "Ethernet7",
        expected := { used := true, oper_up := some false,
                      desc := some "", speed := some 0 },
        interface_flags := none } = false) ∧
    (IfExpected.used { used := true, oper_up := some false,
                       desc := some "", speed := some 0 } = true) ∧
    ((IfExpected.oper_up { used := true, oper_up := some false,
                           desc := some "", speed := some 0 } = none ∨
      IfExpected.oper_up { used := true, oper_up := some false,
                           desc := some "", speed := some 0 } = some false)) ∧
    (∀ r ∈ eos_check_one_interface
        { if_name := "Ethernet7",
          expected := { used := true, oper_up := some false,
                        desc := some "", speed := some 0 },
          interface_flags := none }
        { linkStatus := "connected", lineProtocolStatus := "down",
          description := "other", bandwidth := 99000000 },
      ¬(r.kind = .failFieldMismatch ∧ r.field = some "oper_up")) :=
  ⟨rfl, rfl, Or.inr rfl,
    (eos_falsy_expected_fields_skipped
      { if_name := "Ethernet7",
        expected := { used := true, oper_up := some false,
                      desc := some "", speed := some 0 },
        interface_flags := none }
      { linkStatus := "connected", lineProtocolStatus := "down",
        description := "other", bandwidth := 99000000 }
      (by decide) (by decide)).1 (Or.inr rfl)⟩

-- -----------------------------------------------------------------------
-- C8
-- -----------------------------------------------------------------------

/-- C8: the mapped measurement speed is the payload's bandwidth (bits/sec)
scaled by 10⁻⁶ into an integer number of Mb/s: whenever the bandwidth is a
whole number of Mb/s the conversion is exact, and a bandwidth of
10_000_000_000 maps to a speed of exactly 10_000. -/
theorem eos_speed_unit_conversion (p : IfacePayload)
    (h : 1000000 ∣ p.bandwidth) :
    (EosInterfaceMeasurement.from_cli p).speed * 1000000 = p.bandwidth ∧
    (p.bandwidth = 10000000000 →
      (EosInterfaceMeasurement.from_cli p).speed = 10000) := by
  constructor
  · simp only [EosInterfaceMeasurement.from_cli]
    exact Nat.div_mul_cancel h
  · intro hb
    simp only [EosInterfaceMeasurement.from_cli, hb]

/-- C8 witness: the conversion at the claim's concrete bandwidth. -/
theorem eos_speed_unit_conversion_witness :
    ((1000000 : Nat) ∣ IfacePayload.bandwidth
      { linkStatus := "connected", lineProtocolStatus := "up",
        description := "x", bandwidth := 10000000000 }) ∧
    ((EosInterfaceMeasurement.from_cli
        { linkStatus := "connected", lineProtocolStatus := "up",
          description := "x", bandwidth := 10000000000 }).speed * 1000000 =
      IfacePayload.bandwidth
        { linkStatus := "connected", lineProtocolStatus := "up",
          description := "x", bandwidth := 10000000000 } ∧
     (IfacePayload.bandwidth
        { linkStatus := "connected", lineProtocolStatus := "up",
          description := "x", bandwidth := 10000000000 } = 10000000000 →
      (EosInterfaceMeasurement.from_cli
        { linkStatus := "connected", lineProtocolStatus := "up",
          description := "x", bandwidth := 10000000000 }).speed = 10000)) :=
  ⟨by decide,
    eos_speed_unit_conversion
      { linkStatus := "connected", lineProtocolStatus := "up",
        description := "x", bandwidth := 10000000000 } (by decide)⟩

-- -----------------------------------------------------------------------
-- C2
-- -----------------------------------------------------------------------

/-- C2 (counterexample): in the VLANs domain, an exclusive collection with
expected set `{10}` and an empty observed set has `E − O` non-empty, yet
the exclusive-list check emits no missing-members Fail — it emits a Pass —
refuting the claimed symmetric-difference rule for every domain. -/
theorem eos_exclusive_counterexample :
    (pyDiff [10] ([] : List Nat)).isEmpty = false ∧
    eos_check_vlan_exl_list [10] [] =
      [{ check := .exclusive, kind := .pass, field := none,
         meas := some (.nats []) }] := by
  decide

/-- C2 (amended): the interfaces-domain exclusive check follows the full
symmetric-difference rule (missing-members Fail iff `E − O` is non-empty,
extra-members Fail iff `O − E` is non-empty, Pass iff both are empty, never
a Pass alongside a Fail); the VLANs-domain exclusive check tests only the
extra direction: extra-members Fail iff `O − E` is non-empty, Pass iff it
is empty, and a missing-members Fail is never emitted. -/
theorem eos_exclusive_membership_checks (E O : List String) (EV OV : List Nat) :
    ((eos_check_exclusive_interfaces_list E O).any
        (fun r => r.kind == .failMissingMembers) = !(pyDiff E O).isEmpty) ∧
    ((eos_check_exclusive_interfaces_list E O).any
        (fun r => r.kind == .failExtraMembers) = !(pyDiff O E).isEmpty) ∧
    ((eos_check_exclusive_interfaces_list E O).any
        (fun r => r.kind == .pass) =
      ((pyDiff E O).isEmpty && (pyDiff O E).isEmpty)) ∧
    (((eos_check_exclusive_interfaces_list E O).any (fun r => r.kind == .pass)
        && any_failures (eos_check_exclusive_interfaces_list E O)) = false) ∧
    ((eos_check_vlan_exl_list EV OV).any
        (fun r => r.kind == .failExtraMembers) = !(pyDiff OV EV).isEmpty) ∧
    ((eos_check_vlan_exl_list EV OV).any
        (fun r => r.kind == .pass) = (pyDiff OV EV).isEmpty) ∧
    ((eos_check_vlan_exl_list EV OV).any
        (fun r => r.kind == .failMissingMembers) = false) ∧
    (((eos_check_vlan_exl_list EV OV).any (fun r => r.kind == .pass)
        && any_failures (eos_check_vlan_exl_list EV OV)) = false) := by
  by_cases h1 : (pyDiff E O).isEmpty = true <;>
  by_cases h2 : (pyDiff O E).isEmpty = true <;>
  by_cases h3 : (pyDiff OV EV).isEmpty = true <;>
  simp [eos_check_exclusive_interfaces_list, eos_check_vlan_exl_list,
    any_failures, ResKind.isFail, h1, h2, h3]

-- -----------------------------------------------------------------------
-- C3
-- -----------------------------------------------------------------------

/-- C3 (counterexample): a falsy (empty-dict) fetched response defeats the
cache: two `api_cache_get` calls with the same key both issue the RPC
fetch, because `if not (has_data := cache.get(key))` treats the stored
falsy value as absent. -/
theorem api_cache_counterexample :
    (run_api_cache_calls [] [{ key := "k", fetched := [] },
                             { key := "k", fetched := [] }]).2.2 = 2 := by
  decide

/-- Once a truthy response is cached under a key, further calls with that
key return it without fetching and leave the cache unchanged. -/
theorem run_cached_key_no_fetch (key : String) (f : Resp)
    (cache : List (String × Resp)) (hc : cache.lookup key = some f)
    (ht : respTruthy f = true) (fs : List Resp) :
    run_api_cache_calls cache (fs.map (fun g => { key := key, fetched := g })) =
      (fs.map (fun _ => f), cache, 0) := by
  induction fs with
  | nil => rfl
  | cons g gs ih =>
    simp [List.map_cons, run_api_cache_calls, api_cache_get, hc, ht, ih]

/-- C3 (amended): within one session, for every key whose *first* fetched
response is truthy (a non-empty dict), the RPC fetch is invoked exactly
once across any sequence of `api_cache_get` calls with that key: the first
call stores the fetched response and every subsequent call returns that
stored response without fetching.  (A falsy response is stored but
re-fetched by every later call.) -/
theorem api_cache_single_fetch (key : String) (f : Resp) (fs : List Resp)
    (ht : respTruthy f = true) :
    (run_api_cache_calls []
      ({ key := key, fetched := f } ::
        fs.map (fun g => { key := key, fetched := g }))).2.2 = 1 ∧
    (run_api_cache_calls []
      ({ key := key, fetched := f } ::
        fs.map (fun g => { key := key, fetched := g }))).1 =
      f :: fs.map (fun _ => f) := by
  have h1 : api_cache_get [] { key := key, fetched := f } =
      (f, [(key, f)], true) := by
    simp [api_cache_get]
  have h2 := run_cached_key_no_fetch key f [(key, f)] (by simp) ht fs
  constructor <;> simp [run_api_cache_calls, h1, h2]

/-- C3 witness: a truthy response cached under `"k"`, then two more calls
with the same key: one fetch in total and all three callers receive the
first response. -/
theorem api_cache_single_fetch_witness :
    (respTruthy [("result", "ok")] = true) ∧
    ((run_api_cache_calls []
      ({ key := "k", fetched := [("result", "ok")] } ::
        [[], [("other", "x")]].map
          (fun g => { key := "k", fetched := g }))).2.2 = 1 ∧
    (run_api_cache_calls []
      ({ key := "k", fetched := [("result", "ok")] } ::
        [[], [("other", "x")]].map
          (fun g => { key := "k", fetched := g }))).1 =
      [("result", "ok")] :: [[], [("other", "x")]].map
        (fun _ => [("result", "ok")])) :=
  ⟨by decide,
    api_cache_single_fetch "k" [("result", "ok")] [[], [("other", "x")]]
      (by decide)⟩

-- -----------------------------------------------------------------------
-- C9
-- -----------------------------------------------------------------------

/-- C9 (counterexample): expected `"A-ARB"`, measured `"A-ARB-AR"`: the
claimed rule (strip the trailing `"-AR"` suffix) would compare `"A-ARB"`
with `"A-ARB"` and match, but the source's `split("-AR", 1)[0]` truncates
the measured model at its *first* `"-AR"` occurrence, compares `"A"`, and
reports no match. -/
theorem xcvr_model_counterexample :
    eos_xcvr_model_matches (fun _ => none) "A-ARB" "A-ARB-AR" = false ∧
    xcvr_model_matches_claimed "A-ARB" "A-ARB-AR" = true := by
  decide

/-- C9 (amended): with no user-configured model alias, the model-match
predicate returns true iff: when the expected model starts with
`"AOC-S-S-10G"`, the measured model also starts with that prefix;
otherwise, the measured model — truncated at its *first* `"-AR"`
occurrence when it ends with `"-AR"` — equals the expected model.  In
particular expected `"QSFP-100G-LR4"` matches measured
`"QSFP-100G-LR4-AR"`. -/
theorem xcvr_model_matching_rule (e m : String) :
    eos_xcvr_model_matches (fun _ => none) e m = xcvr_model_matches_amended e m ∧
    eos_xcvr_model_matches (fun _ => none) "QSFP-100G-LR4" "QSFP-100G-LR4-AR" =
      true := by
  constructor
  · simp only [eos_xcvr_model_matches, xcvr_model_matches_amended]
  · decide

-- -----------------------------------------------------------------------
-- C4
-- -----------------------------------------------------------------------

/-- C4 (code bug): for a non-SVI, non-Loopback check whose interface is
absent from the interface-status map, the interfaces executor appends the
no-exists Fail but — lacking the `continue` present in the SVI and
Loopback branches — still calls `eos_check_one_interface` with a `None`
payload, so `from_cli(None)` raises `TypeError` and the whole executor
aborts instead of proceeding to the next check. -/
theorem eos_check_interfaces_missing_iface_crash :
    eos_check_interfaces
      { checks := [{ if_name := "Ethernet1",
                     expected := { used := true, oper_up := none,
                                   desc := none, speed := none },
                     interface_flags := none }],
        exclusive := false }
      { interfaceStatuses := [], vlans := [], ipInterfaces := [] } =
      .error "TypeError: NoneType object is not subscriptable" := by
  rfl

-- -----------------------------------------------------------------------
-- C6
-- -----------------------------------------------------------------------

/-- C6 (code bug): the source's guard
`elif not (svi_oper_status or "Cpu" not in svi_oper_status["interfaces"])`
is unsatisfiable (at that point `svi_oper_status` is truthy), so a VLAN
entry that exists but has no `"Cpu"` member is *not* reported as
no-exists: the SVI field comparison runs and here yields a Pass. -/
theorem eos_svi_without_cpu_checked_anyway :
    eos_check_interfaces
      { checks := [{ if_name := "Vlan10",
                     expected := { used := true, oper_up := some true,
                                   desc := some "VL10", speed := none },
                     interface_flags := none }],
        exclusive := false }
      { interfaceStatuses := [],
        vlans := [("10", { name := "VL10", status := "active",
                           interfaces := [] })],
        ipInterfaces := [] } =
      .ok [{ check := .item "Vlan10", kind := .pass, field := none,
             meas := some (.ifExpected { used := true, oper_up := some true,
                                         desc := some "VL10",
                                         speed := none }) }] := by
  rfl

-- -----------------------------------------------------------------------
-- C5
-- -----------------------------------------------------------------------

/-- C5 (code bug): dispatching a collection type with no registered
executor (here the LAG collection, whose registration is commented out in
`eos_dut.py`) falls into the default body, whose argument-less
`super().execute_checks()` call raises a generic `TypeError` that names
neither the device nor the unsupported collection type — not a Skip
result, not a descriptive error.  Registered collection types still
dispatch to their executors. -/
theorem execute_checks_unregistered_generic_error :
    execute_checks registered_executors .lags =
      .raised "TypeError: execute_checks() missing 1 required positional argument: checks" ∧
    strContainsSub
      "TypeError: execute_checks() missing 1 required positional argument: checks"
      (CollectionType.typeName .lags) = false ∧
    registered_executors.all
      (fun t => execute_checks registered_executors t == .executed t) = true := by
  decide

-- -----------------------------------------------------------------------
-- C7
-- -----------------------------------------------------------------------

/-- C7 (counterexample): an exclusive interfaces collection with one
matching check: the executor's result list carries the exclusivity Pass at
position 0, *before* the per-item Pass — refuting the claim that
exclusivity results are ordered after all per-item results. -/
theorem eos_interfaces_exclusive_order_counterexample :
    eos_check_interfaces
      { checks := [{ if_name := "Ethernet1",
                     expected := { used := true, oper_up := none,
                                   desc := none, speed := none },
                     interface_flags := none }],
        exclusive := true }
      { interfaceStatuses := [("Ethernet1",
          { linkStatus := "connected", lineProtocolStatus := "up",
            description := "", bandwidth := 0 })],
        vlans := [], ipInterfaces := [] } =
      .ok [{ check := .exclusive, kind := .pass, field := none,
             meas := some (.s "OK: no extra or missing interfaces") },
           { check := .item "Ethernet1", kind := .pass, field := none,
             meas := some (.ifMeas { used := true, oper_up := true,
                                     desc := "", speed := 0 }) }] := by
  rfl

theorem eos_check_vlan_exl_list_excl (e m : List Nat) :
    ∀ r ∈ eos_check_vlan_exl_list e m, r.check = CheckRef.exclusive := by
  intro r hr
  simp only [eos_check_vlan_exl_list] at hr
  split at hr <;>
    (simp only [List.mem_singleton] at hr; subst hr; rfl)

theorem eos_check_exclusive_interfaces_list_excl (e m : List String) :
    ∀ r ∈ eos_check_exclusive_interfaces_list e m,
      r.check = CheckRef.exclusive := by
  intro r hr
  simp only [eos_check_exclusive_interfaces_list] at hr
  repeat' split at hr
  all_goals
    simp only [List.mem_append, List.mem_singleton, List.not_mem_nil,
      or_false, false_or] at hr
  all_goals rcases hr with (rfl | rfl) | rfl <;> rfl

theorem oneVlanFails_refs (check : VlanCheck) (vlan_id : String)
    (st : VlanEntry) :
    ∀ r ∈ oneVlanFails check vlan_id st,
      r.check = CheckRef.item check.vlan_id := by
  intro r hr
  simp only [oneVlanFails, List.mem_append] at hr
  rcases hr with ((hA | hB) | hC) | hD
  · split at hA
    · simp only [List.mem_singleton] at hA; subst hA; rfl
    · simp at hA
  · split at hB
    · simp only [List.mem_singleton] at hB; subst hB; rfl
    · simp at hB
  · split at hC
    · simp only [List.mem_singleton] at hC; subst hC; rfl
    · simp at hC
  · split at hD
    · simp only [List.mem_singleton] at hD; subst hD; rfl
    · simp at hD

theorem eos_check_one_vlan_refs (check : VlanCheck) (vlan_id : String)
    (st : VlanEntry) :
    ∀ r ∈ eos_check_one_vlan check vlan_id st,
      r.check = CheckRef.item check.vlan_id := by
  intro r hr
  rw [one_vlan_normal_form check vlan_id st] at hr
  split at hr
  · rcases List.mem_append.mp hr with h | h
    · exact oneVlanFails_refs check vlan_id st r h
    · simp only [List.mem_singleton] at h; subst h; rfl
  · exact oneVlanFails_refs check vlan_id st r hr

theorem eos_check_vlans_loop_not_excl
    (merged : List (String × VlanEntry)) (checks : List VlanCheck) :
    ∀ r ∈ eos_check_vlans_loop merged checks,
      r.check ≠ CheckRef.exclusive := by
  induction checks with
  | nil => intro r hr; simp [eos_check_vlans_loop] at hr
  | cons c cs ih =>
    intro r hr
    simp only [eos_check_vlans_loop] at hr
    cases hm : merged.lookup c.vlan_id with
    | none =>
      rw [hm] at hr
      rcases List.mem_cons.mp hr with h | h
      · subst h; simp
      · exact ih r h
    | some st =>
      rw [hm] at hr
      rcases List.mem_append.mp hr with h | h
      · rw [eos_check_one_vlan_refs c c.vlan_id st r h]; simp
      · exact ih r h

theorem oneIfaceFails_refs (c : IfCheck) (p : IfacePayload) :
    ∀ r ∈ oneIfaceFails c p, r.check = CheckRef.item c.if_name := by
  intro r hr
  simp only [oneIfaceFails, List.mem_append] at hr
  rcases hr with ((hA | hB) | hC) | hD
  · split at hA
    · simp only [List.mem_singleton] at hA; subst hA; rfl
    · simp at hA
  · rcases hob : c.expected.oper_up with _ | b
    · rw [hob] at hB; simp at hB
    · rw [hob] at hB
      cases b
      · simp at hB
      · simp at hB
        rcases hB with ⟨-, rfl⟩
        rfl
  · rcases hod : c.expected.desc with _ | d
    · rw [hod] at hC; simp at hC
    · rw [hod] at hC
      simp at hC
      rcases hC with ⟨-, -, rfl⟩
      rfl
  · rcases hos : c.expected.speed with _ | v
    · rw [hos] at hD; simp at hD
    · rw [hos] at hD
      simp at hD
      rcases hD with ⟨-, -, rfl⟩
      rfl

theorem eos_check_one_interface_not_excl (c : IfCheck) (p : IfacePayload) :
    ∀ r ∈ eos_check_one_interface c p, r.check ≠ CheckRef.exclusive := by
  intro r hr
  by_cases hres : c.is_reserved = true
  · simp only [eos_check_one_interface, hres, if_true] at hr
    simp only [List.mem_singleton] at hr
    subst hr; simp
  · rw [Bool.not_eq_true] at hres
    by_cases hused : c.expected.used = true
    · rw [one_interface_normal_form c p hres hused] at hr
      split at hr
      · rcases List.mem_append.mp hr with h | h
        · rw [oneIfaceFails_refs c p r h]; simp
        · simp only [List.mem_singleton] at h; subst h; simp
      · rw [oneIfaceFails_refs c p r hr]; simp
    · rw [Bool.not_eq_true] at hused
      simp only [eos_check_one_interface, hres, hused, Bool.false_eq_true,
        if_false, Bool.not_false, if_true] at hr
      split at hr
      · simp only [List.mem_singleton] at hr; subst hr; simp
      · simp at hr

theorem eos_check_one_svi_refs (check : IfCheck) (svi : VlanEntry) :
    ∀ r ∈ eos_check_one_svi check svi,
      r.check = CheckRef.item check.if_name := by
  intro r hr
  simp only [eos_check_one_svi] at hr
  repeat' split at hr
  all_goals
    simp only [List.mem_append, List.mem_singleton, List.not_mem_nil,
      or_false, false_or] at hr
  all_goals rcases hr with (rfl | rfl) | rfl <;> rfl

/-- `Except.map f x = .ok b` forces `x = .ok a` with `b = f a`. -/
theorem except_map_ok {ε α β : Type} (f : α → β) (x : Except ε α) (b : β)
    (h : x.map f = .ok b) : ∃ a, x = .ok a ∧ b = f a := by
  cases x with
  | error e => simp [Except.map] at h
  | ok a =>
    simp only [Except.map, Except.ok.injEq] at h
    exact ⟨a, rfl, h.symm⟩

theorem eos_check_interfaces_loop_not_excl (dev : IfDeviceData)
    (checks : List IfCheck) :
    ∀ rs, eos_check_interfaces_loop dev checks = .ok rs →
      ∀ r ∈ rs, r.check ≠ CheckRef.exclusive := by
  induction checks with
  | nil =>
    intro rs h r hr
    simp only [eos_check_interfaces_loop, Except.ok.injEq] at h
    subst h
    simp at hr
  | cons c cs ih =>
    intro rs h r hr
    cases hm : matchSvi c.if_name with
    | some vid =>
      cases hv : dev.vlans.lookup vid with
      | none =>
        simp only [eos_check_interfaces_loop, hm, hv] at h
        obtain ⟨rs', hrs', rfl⟩ := except_map_ok _ _ _ h
        rcases List.mem_cons.mp hr with rfl | hmem
        · simp
        · exact ih rs' hrs' r hmem
      | some svi =>
        simp only [eos_check_interfaces_loop, hm, hv, Bool.true_or,
          Bool.not_true, Bool.false_eq_true, if_false] at h
        obtain ⟨rs', hrs', rfl⟩ := except_map_ok _ _ _ h
        rcases List.mem_append.mp hr with hmem | hmem
        · rw [eos_check_one_svi_refs c svi r hmem]; simp
        · exact ih rs' hrs' r hmem
    | none =>
      by_cases hlo : pyStartsWith c.if_name "Loopback" = true
      · cases hip : dev.ipInterfaces.lookup c.if_name with
        | none =>
          simp only [eos_check_interfaces_loop, hm, hlo, hip, if_true] at h
          obtain ⟨rs', hrs', rfl⟩ := except_map_ok _ _ _ h
          rcases List.mem_cons.mp hr with rfl | hmem
          · simp
          · exact ih rs' hrs' r hmem
        | some lo =>
          simp only [eos_check_interfaces_loop, hm, hlo, hip, if_true] at h
          obtain ⟨rs', hrs', rfl⟩ := except_map_ok _ _ _ h
          rcases List.mem_append.mp hr with hmem | hmem
          · simp only [eos_check_one_loopback, List.mem_singleton] at hmem
            subst hmem; simp
          · exact ih rs' hrs' r hmem
      · rw [Bool.not_eq_true] at hlo
        cases hif : dev.interfaceStatuses.lookup c.if_name with
        | none =>
          simp only [eos_check_interfaces_loop, hm, hlo, hif,
            Bool.false_eq_true, if_false] at h
          exact absurd h (by simp)
        | some pay =>
          simp only [eos_check_interfaces_loop, hm, hlo, hif,
            Bool.false_eq_true, if_false] at h
          obtain ⟨rs', hrs', rfl⟩ := except_map_ok _ _ _ h
          rcases List.mem_append.mp hr with hmem | hmem
          · exact eos_check_one_interface_not_excl c pay r hmem
          · exact ih rs' hrs' r hmem

/-- One iteration of the per-check loop of `eos_check_vlans`: the result
block contributed by a single check (a no-exists Fail when the VLAN entry
is absent, the `eos_check_one_vlan` results otherwise). -/
def eos_check_vlans_one_step (merged : List (String × VlanEntry))
    (check : VlanCheck) : List CheckResult :=
  match merged.lookup check.vlan_id with
  | none => [{ check := .item check.vlan_id, kind := .failNoExists }]
  | some vlan_status => eos_check_one_vlan check check.vlan_id vlan_status

/-- The VLANs per-check loop is the in-order concatenation of the
per-check blocks: per-item results appear grouped by check, in the
collection's check iteration order. -/
theorem eos_check_vlans_loop_eq_join (merged : List (String × VlanEntry))
    (checks : List VlanCheck) :
    eos_check_vlans_loop merged checks =
      (checks.map (eos_check_vlans_one_step merged)).flatten := by
  induction checks with
  | nil => rfl
  | cons c cs ih =>
    cases hm : merged.lookup c.vlan_id <;>
      simp [eos_check_vlans_loop, eos_check_vlans_one_step, hm, ih]

/-- Every result of a VLAN per-check block answers that check. -/
theorem eos_check_vlans_one_step_refs (merged : List (String × VlanEntry))
    (c : VlanCheck) :
    ∀ r ∈ eos_check_vlans_one_step merged c,
      r.check = CheckRef.item c.vlan_id := by
  intro r hr
  cases hm : merged.lookup c.vlan_id with
  | none =>
    simp only [eos_check_vlans_one_step, hm, List.mem_singleton] at hr
    subst hr; rfl
  | some st =>
    simp only [eos_check_vlans_one_step, hm] at hr
    exact eos_check_one_vlan_refs c c.vlan_id st r hr

/-- One iteration of the per-check loop of `eos_check_interfaces`: the
result block contributed by a single check, or the `TypeError` raised on
the missing-`continue` path. -/
def eos_check_interfaces_one_step (dev : IfDeviceData) (check : IfCheck) :
    Except String (List CheckResult) :=
  match matchSvi check.if_name with
  | some vlan_id =>
    match dev.vlans.lookup vlan_id with
    | none => .ok [{ check := .item check.if_name, kind := .failNoExists }]
    | some svi_oper_status =>
      if !(true || !(svi_oper_status.interfaces.contains "Cpu")) then
        .ok [{ check := .item check.if_name, kind := .failNoExists }]
      else .ok (eos_check_one_svi check svi_oper_status)
  | none =>
    if pyStartsWith check.if_name "Loopback" then
      match dev.ipInterfaces.lookup check.if_name with
      | none => .ok [{ check := .item check.if_name, kind := .failNoExists }]
      | some lo_status => .ok (eos_check_one_loopback check lo_status)
    else
      match dev.interfaceStatuses.lookup check.if_name with
      | none => .error "TypeError: NoneType object is not subscriptable"
      | some iface_oper_status =>
        .ok (eos_check_one_interface check iface_oper_status)

/-- The per-check blocks of the interfaces executor, in check iteration
order (erroring exactly where the loop errors). -/
def eos_check_interfaces_blocks (dev : IfDeviceData) :
    List IfCheck → Except String (List (List CheckResult))
  | [] => .ok []
  | c :: cs =>
    match eos_check_interfaces_one_step dev c with
    | .error e => .error e
    | .ok block => (eos_check_interfaces_blocks dev cs).map (block :: ·)

theorem loop_step_join {ε : Type} (block : List CheckResult)
    (x : Except ε (List (List CheckResult)))
    (y : Except ε (List CheckResult)) (hy : y = x.map List.flatten) :
    y.map (fun rs => block ++ rs) =
      (x.map (fun bs => block :: bs)).map List.flatten := by
  subst hy
  cases x <;> rfl

theorem loop_step_join_cons {ε : Type} (a : CheckResult)
    (x : Except ε (List (List CheckResult)))
    (y : Except ε (List CheckResult)) (hy : y = x.map List.flatten) :
    y.map (fun rs => a :: rs) =
      (x.map (fun bs => [a] :: bs)).map List.flatten := by
  subst hy
  cases x <;> rfl

/-- The interfaces per-check loop is the in-order concatenation of the
per-check blocks: per-item results appear grouped by check, in the
collection's check iteration order (and the loop errors exactly where a
block does). -/
theorem eos_check_interfaces_loop_eq_blocks (dev : IfDeviceData)
    (checks : List IfCheck) :
    eos_check_interfaces_loop dev checks =
      (eos_check_interfaces_blocks dev checks).map List.flatten := by
  induction checks with
  | nil => rfl
  | cons c cs ih =>
    cases hm : matchSvi c.if_name with
    | some vid =>
      cases hv : dev.vlans.lookup vid with
      | none =>
        simp only [eos_check_interfaces_loop, eos_check_interfaces_blocks,
          eos_check_interfaces_one_step, hm, hv]
        exact loop_step_join_cons _ _ _ ih
      | some svi =>
        simp only [eos_check_interfaces_loop, eos_check_interfaces_blocks,
          eos_check_interfaces_one_step, hm, hv, Bool.true_or,
          Bool.not_true, Bool.false_eq_true, if_false]
        exact loop_step_join _ _ _ ih
    | none =>
      by_cases hlo : pyStartsWith c.if_name "Loopback" = true
      · cases hip : dev.ipInterfaces.lookup c.if_name with
        | none =>
          simp only [eos_check_interfaces_loop, eos_check_interfaces_blocks,
            eos_check_interfaces_one_step, hm, hlo, hip, if_true]
          exact loop_step_join_cons _ _ _ ih
        | some lo =>
          simp only [eos_check_interfaces_loop, eos_check_interfaces_blocks,
            eos_check_interfaces_one_step, hm, hlo, hip, if_true]
          exact loop_step_join _ _ _ ih
      · rw [Bool.not_eq_true] at hlo
        cases hif : dev.interfaceStatuses.lookup c.if_name with
        | none =>
          simp only [eos_check_interfaces_loop, eos_check_interfaces_blocks,
            eos_check_interfaces_one_step, hm, hlo, hif, Bool.false_eq_true,
            if_false]
          rfl
        | some pay =>
          simp only [eos_check_interfaces_loop, eos_check_interfaces_blocks,
            eos_check_interfaces_one_step, hm, hlo, hif, Bool.false_eq_true,
            if_false]
          exact loop_step_join _ _ _ ih

theorem eos_check_one_interface_refs (c : IfCheck) (p : IfacePayload) :
    ∀ r ∈ eos_check_one_interface c p,
      r.check = CheckRef.item c.if_name := by
  intro r hr
  by_cases hres : c.is_reserved = true
  · simp only [eos_check_one_interface, hres, if_true] at hr
    simp only [List.mem_singleton] at hr
    subst hr; rfl
  · rw [Bool.not_eq_true] at hres
    by_cases hused : c.expected.used = true
    · rw [one_interface_normal_form c p hres hused] at hr
      split at hr
      · rcases List.mem_append.mp hr with h | h
        · exact oneIfaceFails_refs c p r h
        · simp only [List.mem_singleton] at h; subst h; rfl
      · exact oneIfaceFails_refs c p r hr
    · rw [Bool.not_eq_true] at hused
      simp only [eos_check_one_interface, hres, hused, Bool.false_eq_true,
        if_false, Bool.not_false, if_true] at hr
      split at hr
      · simp only [List.mem_singleton] at hr; subst hr; rfl
      · simp at hr

/-- Every result of an interfaces per-check block answers that check. -/
theorem eos_check_interfaces_one_step_refs (dev : IfDeviceData)
    (c : IfCheck) (block : List CheckResult)
    (h : eos_check_interfaces_one_step dev c = .ok block) :
    ∀ r ∈ block, r.check = CheckRef.item c.if_name := by
  intro r hr
  cases hm : matchSvi c.if_name with
  | some vid =>
    cases hv : dev.vlans.lookup vid with
    | none =>
      simp only [eos_check_interfaces_one_step, hm, hv,
        Except.ok.injEq] at h
      subst h
      simp only [List.mem_singleton] at hr
      subst hr; rfl
    | some svi =>
      simp only [eos_check_interfaces_one_step, hm, hv, Bool.true_or,
        Bool.not_true, Bool.false_eq_true, if_false, Except.ok.injEq] at h
      subst h
      exact eos_check_one_svi_refs c svi r hr
  | none =>
    by_cases hlo : pyStartsWith c.if_name "Loopback" = true
    · cases hip : dev.ipInterfaces.lookup c.if_name with
      | none =>
        simp only [eos_check_interfaces_one_step, hm, hlo, hip, if_true,
          Except.ok.injEq] at h
        subst h
        simp only [List.mem_singleton] at hr
        subst hr; rfl
      | some lo =>
        simp only [eos_check_interfaces_one_step, hm, hlo, hip, if_true,
          Except.ok.injEq] at h
        subst h
        simp only [eos_check_one_loopback, List.mem_singleton] at hr
        subst hr; rfl
    · rw [Bool.not_eq_true] at hlo
      cases hif : dev.interfaceStatuses.lookup c.if_name with
      | none =>
        simp only [eos_check_interfaces_one_step, hm, hlo, hif,
          Bool.false_eq_true, if_false] at h
        exact absurd h (by simp)
      | some pay =>
        simp only [eos_check_interfaces_one_step, hm, hlo, hif,
          Bool.false_eq_true, if_false, Except.ok.injEq] at h
        subst h
        exact eos_check_one_interface_refs c pay r hr

/-- C7 (amended): per-executor result ordering.  Per-item results follow
the collection's check iteration order in both executors — each per-check
loop is the in-order concatenation of per-check blocks, every result of a
block answering that block's check.  The VLANs executor returns every
exclusivity-check result after every per-item result; the interfaces
executor, by contrast, returns its exclusivity results *before* every
per-item result. -/
theorem eos_results_ordering
    (checks : List VlanCheck) (exclExpd : List Nat)
    (info : List (String × VlanEntry)) (cfg : List (String × List String))
    (coll : IfCollection) (dev : IfDeviceData)
    (vrs irs : List CheckResult)
    (merged : List (String × VlanEntry)) (vc : VlanCheck) (ic : IfCheck)
    (block : List CheckResult)
    (hv : eos_check_vlans checks exclExpd info cfg = .ok vrs)
    (hi : eos_check_interfaces coll dev = .ok irs) :
    vrs.Pairwise
      (fun a b => a.check = CheckRef.exclusive → b.check = CheckRef.exclusive) ∧
    irs.Pairwise
      (fun a b => b.check = CheckRef.exclusive → a.check = CheckRef.exclusive) ∧
    (eos_check_vlans_loop merged checks =
      (checks.map (eos_check_vlans_one_step merged)).flatten) ∧
    (∀ r ∈ eos_check_vlans_one_step merged vc,
      r.check = CheckRef.item vc.vlan_id) ∧
    (eos_check_interfaces_loop dev coll.checks =
      (eos_check_interfaces_blocks dev coll.checks).map List.flatten) ∧
    (eos_check_interfaces_one_step dev ic = .ok block →
      ∀ r ∈ block, r.check = CheckRef.item ic.if_name) := by
  refine ⟨?_, ?_, eos_check_vlans_loop_eq_join merged checks,
    eos_check_vlans_one_step_refs merged vc,
    eos_check_interfaces_loop_eq_blocks dev coll.checks,
    fun h => eos_check_interfaces_one_step_refs dev ic block h⟩
  · simp only [eos_check_vlans] at hv
    split at hv
    · exact absurd hv (by simp)
    · cases hmm : mergeVlanCfg info cfg with
      | error e => rw [hmm] at hv; simp at hv
      | ok merged2 =>
        rw [hmm] at hv
        simp only [Except.ok.injEq] at hv
        subst hv
        rw [List.pairwise_append]
        refine ⟨?_, ?_, ?_⟩
        · exact List.pairwise_of_forall_mem_list (fun a ha b _ hex =>
            absurd hex (eos_check_vlans_loop_not_excl merged2 checks a ha))
        · exact List.pairwise_of_forall_mem_list (fun a _ b hb _ =>
            eos_check_vlan_exl_list_excl _ _ b hb)
        · exact fun a _ b hb _ => eos_check_vlan_exl_list_excl _ _ b hb
  · simp only [eos_check_interfaces] at hi
    obtain ⟨rs2, hrs2, rfl⟩ := except_map_ok _ _ _ hi
    have hexcl : ∀ a ∈ (if coll.exclusive then
        eos_check_exclusive_interfaces_list
          (coll.checks.map (fun c => c.if_name))
          (dev.interfaceStatuses.map Prod.fst ++ dev.ipInterfaces.map Prod.fst)
      else []), a.check = CheckRef.exclusive := by
      intro a ha
      split at ha
      · exact eos_check_exclusive_interfaces_list_excl _ _ a ha
      · simp at ha
    rw [List.pairwise_append]
    refine ⟨?_, ?_, ?_⟩
    · exact List.pairwise_of_forall_mem_list (fun a ha b _ _ => hexcl a ha)
    · exact List.pairwise_of_forall_mem_list (fun a _ b hb hex =>
        absurd hex (eos_check_interfaces_loop_not_excl dev coll.checks
          rs2 hrs2 b hb))
    · exact fun a ha b _ _ => hexcl a ha

/-- C7 witness: the ordering statement instantiated at a concrete VLANs
run (empty collection, whose output is the lone exclusivity Pass), a
concrete interfaces run (empty collection, non-exclusive, empty output),
and concrete per-check-block instances. -/
theorem eos_results_ordering_witness :
    (eos_check_vlans [] [] [] [] =
      .ok [{ check := .exclusive, kind := .pass, field := none,
             meas := some (.nats []) }]) ∧
    (eos_check_interfaces { checks := [], exclusive := false }
      { interfaceStatuses := [], vlans := [], ipInterfaces := [] } =
      .ok []) ∧
    (([({ check := CheckRef.exclusive, kind := ResKind.pass, field := none,
          meas := some (.nats []) } : CheckResult)].Pairwise
       (fun a b => a.check = CheckRef.exclusive → b.check = CheckRef.exclusive) ∧
      ([] : List CheckResult).Pairwise
       (fun a b => b.check = CheckRef.exclusive → a.check = CheckRef.exclusive) ∧
      (eos_check_vlans_loop [] [] =
        (([] : List VlanCheck).map (eos_check_vlans_one_step [])).flatten) ∧
      (∀ r ∈ eos_check_vlans_one_step [] vlan10Check,
        r.check = CheckRef.item vlan10Check.vlan_id) ∧
      (eos_check_interfaces_loop
          { interfaceStatuses := [], vlans := [], ipInterfaces := [] }
          (IfCollection.checks { checks := [], exclusive := false }) =
        (eos_check_interfaces_blocks
          { interfaceStatuses := [], vlans := [], ipInterfaces := [] }
          (IfCollection.checks { checks := [], exclusive := false })).map
            List.flatten) ∧
      (eos_check_interfaces_one_step
          { interfaceStatuses := [], vlans := [], ipInterfaces := [] }
          ethernet3Check = .ok [{ check := .item "Ethernet3",
                                  kind := .failNoExists }] →
        ∀ r ∈ [({ check := .item "Ethernet3",
                  kind := .failNoExists } : CheckResult)],
          r.check = CheckRef.item ethernet3Check.if_name))) :=
  ⟨rfl, rfl,
    eos_results_ordering [] [] [] [] { checks := [], exclusive := false }
      { interfaceStatuses := [], vlans := [], ipInterfaces := [] }
      _ _ [] vlan10Check ethernet3Check
      [{ check := .item "Ethernet3", kind := .failNoExists }] rfl rfl⟩
